import Mathlib

/-!
Shallow embedding of `doctolib_scraper.py` and `email_alert.py`
(Spidersouris/docotlib_scraper).

The scraper drives a browser over a Doctolib search page, filters the
captured network log, extracts doctor ids, builds availability query URLs,
classifies slots as imminent or faraway, and optionally dispatches one
batched email per cycle.  Python exceptions are embedded as `Except String`
errors; console prints and logger calls are embedded as an explicit event
trace; the SMTP sink is embedded as a list of composed `Email` values.
-/

set_option autoImplicit false

namespace DoctolibScraper

/-- Python substring containment: `pat in s`. -/
def strContains (s pat : String) : Bool :=
  decide (pat.data <:+: s.data)

/-- Insert a string into an already sorted list (ascending). -/
def insertSorted (x : String) : List String → List String
  | [] => [x]
  | y :: ys => if x < y then x :: y :: ys else y :: insertSorted x ys

/-- Python `sorted` on a list of strings (ascending lexicographic). -/
def pySorted (l : List String) : List String :=
  l.foldr insertSorted []

/-- A Python value as it appears inside an `imminent_slots` record: either a
plain string or a set literal of strings (`\x7bexpr\x7d` in the source). -/
inductive PyVal where
  | str : String → PyVal
  | set : List String → PyVal
  deriving DecidableEq, Repr

/-- Python subscript `v[0]`.  Indexing a string yields its first character;
indexing a set raises `TypeError`. -/
def pyIndex0 : PyVal → Except String String
  | .str s =>
    match s.data with
    | [] => .error "IndexError: string index out of range"
    | c :: _ => .ok (String.mk [c])
  | .set _ => .error "TypeError: set object is not subscriptable"

/-- An email composed by `email_alert` (subject and plain-text body). -/
structure Email where
  subject : String
  body : String
  deriving DecidableEq, Repr

/-- One line of the email body for one `imminent_slots` record
(`check_imminent_slots` loop body): three-element records use the
`- date @ time with provider` shape, two-element records drop the provider,
any other length contributes nothing. -/
def slotLine : List PyVal → Except String String
  | [a, b, c] =>
    match pyIndex0 a with
    | .error e => .error e
    | .ok x =>
      match pyIndex0 b with
      | .error e => .error e
      | .ok y =>
        match pyIndex0 c with
        | .error e => .error e
        | .ok z => .ok ("- " ++ x ++ " @ " ++ y ++ " with " ++ z ++ "\n")
  | [a, b] =>
    match pyIndex0 a with
    | .error e => .error e
    | .ok x =>
      match pyIndex0 b with
      | .error e => .error e
      | .ok y => .ok ("- " ++ x ++ " @ " ++ y ++ "\n")
  | _ => .ok ""

/-- The message-accumulation loop of `check_imminent_slots`. -/
def build_message : List (List PyVal) → String → Except String String
  | [], acc => .ok acc
  | t :: rest, acc =>
    match slotLine t with
    | .error e => .error e
    | .ok line => build_message rest (acc ++ line)

/-- `check_imminent_slots`: on a non-empty batch, build the body and dispatch
one email whose subject is pluralized on the batch size; on an empty batch do
nothing.  The returned list holds the emails handed to `email_alert`. -/
def check_imminent_slots (imminent_slots : List (List PyVal)) :
    Except String (List Email) :=
  if imminent_slots.length > 0 then
    match build_message imminent_slots
        "The following imminent appointments are available:\n\n" with
    | .error e => .error e
    | .ok msg =>
      if imminent_slots.length == 1 then
        .ok [⟨"Found 1 imminent appointment on Doctolib", msg⟩]
      else
        .ok [⟨"Found " ++ toString imminent_slots.length ++
              " imminent appointments on Doctolib", msg⟩]
  else
    .ok []

/-- A decoded performance-log entry (the fields `log_filter` reads). -/
structure LogEntry where
  method : String
  mimeType : String
  url : String
  deriving DecidableEq, Repr

/-- `log_filter`: an entry is relevant iff it is a received network response,
its MIME type contains `json`, and its URL contains `search_results`. -/
def log_filter (l : LogEntry) : Bool :=
  l.method == "Network.responseReceived"
    && strContains l.mimeType "json"
    && strContains l.url "search_results"

/-- Scan for the first maximal run of digit characters. -/
def digitRunAux : List Char → Option String
  | [] => none
  | c :: cs =>
    if c.isDigit then some (String.mk ((c :: cs).takeWhile Char.isDigit))
    else digitRunAux cs

/-- Python re.search of one-or-more digits on a URL: the first maximal digit
run, or `none` when the URL holds no digit. -/
def re_search_digits (s : String) : Option String :=
  digitRunAux s.data

/-- A calendar date as produced by `datetime.fromisoformat` on the date part
of a slot string. -/
structure Date where
  year : Nat
  month : Nat
  day : Nat
  deriving DecidableEq, Repr

/-- A time of day as produced by `datetime.strptime` with the
hours-minutes-seconds-microseconds-offset format. -/
structure TimeOfDay where
  hour : Nat
  minute : Nat
  second : Nat
  microsec : Nat
  tzmin : Int
  deriving DecidableEq, Repr

/-- Numeric value of a digit character. -/
def dv (c : Char) : Nat := c.toNat - 48

/-- Gregorian leap-year test. -/
def isLeap (y : Nat) : Bool :=
  y % 4 == 0 && (y % 100 != 0 || y % 400 == 0)

/-- Number of days in a month (month already validated to lie in 1..12). -/
def daysInMonth (y m : Nat) : Nat :=
  if m == 2 then (if isLeap y then 29 else 28)
  else if m == 4 || m == 6 || m == 9 || m == 11 then 30
  else 31

/-- `datetime.fromisoformat` on a date-only string of shape
year-month-day with four, two and two digits, validating the ranges. -/
def fromisoformat (s : String) : Except String Date :=
  match s.data with
  | [y1, y2, y3, y4, h1, m1, m2, h2, d1, d2] =>
    if y1.isDigit && y2.isDigit && y3.isDigit && y4.isDigit
        && h1 == '-' && m1.isDigit && m2.isDigit
        && h2 == '-' && d1.isDigit && d2.isDigit then
      let y := ((dv y1 * 10 + dv y2) * 10 + dv y3) * 10 + dv y4
      let m := dv m1 * 10 + dv m2
      let d := dv d1 * 10 + dv d2
      if 1 ≤ m && m ≤ 12 && 1 ≤ d && d ≤ daysInMonth y m then
        .ok ⟨y, m, d⟩
      else .error "ValueError: invalid isoformat string"
    else .error "ValueError: invalid isoformat string"
  | _ => .error "ValueError: invalid isoformat string"

/-- Read exactly two digit characters. -/
def parse2digits : List Char → Option (Nat × List Char)
  | a :: b :: rest =>
    if a.isDigit && b.isDigit then some (dv a * 10 + dv b, rest) else none
  | _ => none

/-- Read one to six fractional-second digits (the microseconds directive). -/
def parseFracDigits (cs : List Char) : Option (Nat × List Char) :=
  let ds := cs.takeWhile Char.isDigit
  if ds.length == 0 || ds.length > 6 then none
  else some (ds.foldl (fun n c => n * 10 + dv c) 0, cs.drop ds.length)

/-- Read the hours-minutes body of a UTC offset, with or without a colon. -/
def parseTZBody (cs : List Char) : Option (Nat × List Char) :=
  match parse2digits cs with
  | some (h, ':' :: r) =>
    match parse2digits r with
    | some (m, r2) => some (h * 60 + m, r2)
    | none => none
  | some (h, r) =>
    match parse2digits r with
    | some (m, r2) => some (h * 60 + m, r2)
    | none => none
  | none => none

/-- Read a UTC offset: `Z`, or a sign followed by hours and minutes. -/
def parseTZ : List Char → Option (Int × List Char)
  | [] => none
  | 'Z' :: rest => some (0, rest)
  | '+' :: rest =>
    match parseTZBody rest with
    | some (m, r) => some ((m : Int), r)
    | none => none
  | '-' :: rest =>
    match parseTZBody rest with
    | some (m, r) => some (-(m : Int), r)
    | none => none
  | _ => none

/-- `datetime.strptime` with the format
hours `:` minutes `:` seconds `.` fraction offset, used on the time part of a
slot string. -/
def strptime_time (s : String) : Except String TimeOfDay :=
  match parse2digits s.data with
  | some (h, ':' :: r1) =>
    match parse2digits r1 with
    | some (m, ':' :: r2) =>
      match parse2digits r2 with
      | some (sec, '.' :: r3) =>
        match parseFracDigits r3 with
        | some (us, r4) =>
          match parseTZ r4 with
          | some (tz, []) =>
            if h ≤ 23 && m ≤ 59 && sec ≤ 61 then .ok ⟨h, m, sec, us, tz⟩
            else .error "ValueError: time data does not match format"
          | _ => .error "ValueError: time data does not match format"
        | none => .error "ValueError: time data does not match format"
      | _ => .error "ValueError: time data does not match format"
    | _ => .error "ValueError: time data does not match format"
  | _ => .error "ValueError: time data does not match format"

/-- Split a character list on a separator character, keeping empty pieces. -/
def splitOnCharAux (sep : Char) : List Char → List Char → List (List Char)
  | [], acc => [acc.reverse]
  | c :: cs, acc =>
    if c = sep then acc.reverse :: splitOnCharAux sep cs []
    else splitOnCharAux sep cs (c :: acc)

/-- Python `str.split` on the literal one-character `T` separator. -/
def pySplit (s : String) (sep : Char) : List String :=
  (splitOnCharAux sep s.data []).map String.mk

/-- The slot-string parsing done in `main`: split on `T`, unpack into exactly
a date part and a time part (a Python `ValueError` otherwise), then parse
both parts. -/
def parse_slot (slot : String) : Except String (Date × TimeOfDay) :=
  match pySplit slot 'T' with
  | [date_str, time_str] =>
    match fromisoformat date_str with
    | .error e => .error e
    | .ok d =>
      match strptime_time time_str with
      | .error e => .error e
      | .ok t => .ok (d, t)
  | [_] => .error "ValueError: not enough values to unpack (expected 2, got 1)"
  | _ => .error "ValueError: too many values to unpack (expected 2)"

/-- Zeller congruence: zero is Saturday, one is Sunday, and so on. -/
def zeller (y m q : Nat) : Nat :=
  let y2 := if m < 3 then y - 1 else y
  let m2 := if m < 3 then m + 12 else m
  let k := y2 % 100
  let j := y2 / 100
  (q + (13 * (m2 + 1)) / 5 + k + k / 4 + j / 4 + 5 * j) % 7

/-- Weekday name of a date (the weekday directive of `strftime`). -/
def weekdayName (d : Date) : String :=
  match zeller d.year d.month d.day with
  | 0 => "Saturday"
  | 1 => "Sunday"
  | 2 => "Monday"
  | 3 => "Tuesday"
  | 4 => "Wednesday"
  | 5 => "Thursday"
  | _ => "Friday"

/-- Full month name (the month-name directive of `strftime`). -/
def monthName : Nat → String
  | 1 => "January"
  | 2 => "February"
  | 3 => "March"
  | 4 => "April"
  | 5 => "May"
  | 6 => "June"
  | 7 => "July"
  | 8 => "August"
  | 9 => "September"
  | 10 => "October"
  | 11 => "November"
  | _ => "December"

/-- Zero-padded two-digit rendering. -/
def pad2 (n : Nat) : String :=
  if n < 10 then "0" ++ toString n else toString n

/-- `date_obj.strftime` with weekday, month name, padded day and year. -/
def fmt_date (d : Date) : String :=
  weekdayName d ++ ", " ++ monthName d.month ++ " " ++ pad2 d.day ++ ", "
    ++ toString d.year

/-- `time_obj.strftime` with padded hour and minute. -/
def fmt_time (t : TimeOfDay) : String :=
  pad2 t.hour ++ ":" ++ pad2 t.minute

/-- One observable step of a cycle: a console print, a logger call, or an
outgoing HTTP request. -/
inductive Event where
  | warnBlocked (doctor_id : String)
  | httpGet (url : String)
  | debugRespUrl (url : String)
  | errorInvalidData
  | warnInvalidIds (ids : List String)
  | errorNoDoctors
  | nameLookup (doctor_id : String)
  | errorNameNotFound
  | analyzing (link : String)
  | headerPrint (name : Option String)
  | imminentPrint (dateS timeS : String)
  | errorNoValid
  | farawayPrint (dateS timeS : String)
  deriving DecidableEq, Repr

/-- The `search_result` object of a search-results JSON body: the fields the
Extractor reads (`visit_motive_id` may be absent). -/
structure SearchBody where
  visit_motive_id : Option Nat
  agenda_ids : List Nat
  practice_ids : List Nat
  deriving DecidableEq, Repr

/-- An availability JSON body: `total`, the slot strings of each day
grouping, and the optional `next_slot` field (outer `none` means the key is
absent, inner `none` means a JSON null value). -/
structure AvailData where
  total : Int
  availabilities : List (List String)
  next_slot : Option (Option String)
  deriving DecidableEq, Repr

/-- The command-line flags a cycle reads. -/
structure Args where
  imminent : Bool
  email : Bool
  deriving DecidableEq, Repr

/-- The external world of one cycle: decoded performance-log entries, the
search-results and availability JSON bodies keyed by URL, the DOM name
lookup, the blocked-ids configuration string and the start date. -/
structure CycleEnv where
  logs : List LogEntry
  fetch : String → SearchBody
  avail : String → AvailData
  name : String → Option String
  blocked_doctor_ids : String
  current_date : String

/-- Working state of the extraction loop in `main`. -/
structure ExtractState where
  doctor_info : List (String × String)
  invalid_doctor_ids : List String
  events : List Event
  deriving DecidableEq, Repr

/-- The availability query URL built in `main` for one doctor. -/
def build_url (current_date : String) (visit_motive_id agenda_id practice_id : Nat) :
    String :=
  "https://www.doctolib.fr/availabilities.json?start_date=" ++ current_date
    ++ "&visit_motive_ids=" ++ toString visit_motive_id
    ++ "&agenda_ids=" ++ toString agenda_id
    ++ "&practice_ids=" ++ toString practice_id
    ++ "&limit=15"

/-- The body of the extraction loop for one relevant log entry: extract the
doctor id from the response URL (an `AttributeError` when the URL has no
digit), skip blocked ids with a warning, fetch the body, record ids whose
`search_result` lacks `visit_motive_id` as invalid, and otherwise append a
doctor-info pair holding the availability query URL. -/
def process_log (env : CycleEnv) (st : ExtractState) (l : LogEntry) :
    Except String ExtractState :=
  let resp_url := l.url
  match re_search_digits resp_url with
  | none => .error "AttributeError: NoneType object has no attribute group"
  | some doctor_id =>
    if strContains env.blocked_doctor_ids doctor_id then
      .ok { st with events := st.events ++ [Event.warnBlocked doctor_id] }
    else
      let data := env.fetch resp_url
      let st1 := { st with events := st.events
        ++ [Event.httpGet resp_url, Event.debugRespUrl resp_url] }
      match data.visit_motive_id with
      | none =>
        .ok { st1 with
              events := st1.events ++ [Event.errorInvalidData]
              invalid_doctor_ids := st1.invalid_doctor_ids ++ [doctor_id] }
      | some vmid =>
        match data.agenda_ids with
        | [] => .error "IndexError: list index out of range"
        | agenda_id :: _ =>
          match data.practice_ids with
          | [] => .error "IndexError: list index out of range"
          | practice_id :: _ =>
            .ok { st1 with doctor_info := st1.doctor_info
              ++ [(doctor_id, build_url env.current_date vmid agenda_id practice_id)] }

/-- The extraction loop: run `process_log` on every entry passing
`log_filter`. -/
def process_logs (env : CycleEnv) : List LogEntry → ExtractState →
    Except String ExtractState
  | [], st => .ok st
  | l :: ls, st =>
    if log_filter l then
      match process_log env st l with
      | .error e => .error e
      | .ok st1 => process_logs env ls st1
    else process_logs env ls st

/-- Working state of the availability-resolution loop in `main`. -/
structure RState where
  events : List Event
  imminent_slots : List (List PyVal)
  deriving DecidableEq, Repr

/-- Processing of one slot string: parse it, print the imminent-slot line,
and when the email flag is set append the record (set literals around the
formatted date and time, the provider name when known) to the batch. -/
def process_slot (args : Args) (doctor_name : Option String) (st : RState)
    (slot : String) : Except String RState :=
  match parse_slot slot with
  | .error e => .error e
  | .ok (d, t) =>
    let ds := fmt_date d
    let ts := fmt_time t
    let st1 := { st with events := st.events ++ [Event.imminentPrint ds ts] }
    if args.email then
      match doctor_name with
      | some nm =>
        .ok { st1 with imminent_slots := st1.imminent_slots
          ++ [[PyVal.set [ds], PyVal.set [ts], PyVal.str nm]] }
      | none =>
        .ok { st1 with imminent_slots := st1.imminent_slots
          ++ [[PyVal.set [ds], PyVal.set [ts]]] }
    else .ok st1

/-- The inner slot loop over one day grouping. -/
def process_slots (args : Args) (doctor_name : Option String) :
    List String → RState → Except String RState
  | [], st => .ok st
  | s :: rest, st =>
    match process_slot args doctor_name st s with
    | .error e => .error e
    | .ok st1 => process_slots args doctor_name rest st1

/-- The outer loop over the day groupings of one availability response. -/
def process_avails (args : Args) (doctor_name : Option String) :
    List (List String) → RState → Except String RState
  | [], st => .ok st
  | av :: rest, st =>
    match process_slots args doctor_name av st with
    | .error e => .error e
    | .ok st1 => process_avails args doctor_name rest st1

/-- The body of the availability loop for one doctor-info pair.  The returned
flag is true when the loop must break (empty `availabilities` despite a
positive `total`).  With a zero `total` and the imminent flag unset, a
present truthy `next_slot` is parsed and printed as a faraway slot; an
absent key is a caught `KeyError` and a falsy value prints nothing. -/
def process_doctor (env : CycleEnv) (args : Args) (st : RState)
    (doctor_id link : String) : Except String (RState × Bool) :=
  let data := env.avail link
  let st1 := { st with events := st.events ++ [Event.httpGet link] }
  if data.total > 0 then
    let doctor_name := env.name doctor_id
    let st2 := { st1 with events := st1.events ++ [Event.nameLookup doctor_id]
      ++ (match doctor_name with
          | some _ => []
          | none => [Event.errorNameNotFound]) }
    let st3 := { st2 with events := st2.events
      ++ [Event.analyzing link, Event.headerPrint doctor_name] }
    if data.availabilities.length ≤ 0 then
      .ok ({ st3 with events := st3.events ++ [Event.errorNoValid] }, true)
    else
      match process_avails args doctor_name data.availabilities st3 with
      | .error e => .error e
      | .ok st4 => .ok (st4, false)
  else
    if args.imminent = false then
      match data.next_slot with
      | none => .ok (st1, false)
      | some none => .ok (st1, false)
      | some (some ns) =>
        if ns = "" then .ok (st1, false)
        else
          let st2 := { st1 with events := st1.events ++ [Event.analyzing link] }
          match parse_slot ns with
          | .error e => .error e
          | .ok (d, t) =>
            .ok ({ st2 with events := st2.events
              ++ [Event.farawayPrint (fmt_date d) (fmt_time t)] }, false)
    else .ok (st1, false)

/-- The availability loop over all doctor-info pairs, stopping early when
`process_doctor` signals a break.  The returned flag records whether the
loop was left by a break. -/
def process_doctors (env : CycleEnv) (args : Args) :
    List (String × String) → RState → Except String (RState × Bool)
  | [], st => .ok (st, false)
  | (doctor_id, link) :: rest, st =>
    match process_doctor env args st doctor_id link with
    | .error e => .error e
    | .ok (st1, true) => .ok (st1, true)
    | .ok (st1, false) => process_doctors env args rest st1

/-- The observable outcome of one cycle: the event trace, the final batch,
and the emails handed to `email_alert`. -/
structure CycleResult where
  events : List Event
  imminent_slots : List (List PyVal)
  emails : List Email
  deriving DecidableEq, Repr

/-- The aggregated warning emitted after the extraction loop when some ids
were invalid, listing them in sorted order. -/
def invalid_warning (est : ExtractState) : List Event :=
  if est.invalid_doctor_ids.length > 0 then
    [Event.warnInvalidIds (pySorted est.invalid_doctor_ids)]
  else []

/-- The part of `main` after the extraction loop: the aggregated invalid-ids
warning, the availability loop (or the no-doctors error), and the batched
email check. -/
def after_extract (env : CycleEnv) (args : Args) (est : ExtractState) :
    Except String CycleResult :=
  if est.doctor_info.length > 0 then
    match process_doctors env args est.doctor_info
        ⟨est.events ++ invalid_warning est, []⟩ with
    | .error e => .error e
    | .ok (st, _) =>
      match check_imminent_slots st.imminent_slots with
      | .error e => .error e
      | .ok emails => .ok ⟨st.events, st.imminent_slots, emails⟩
  else
    match check_imminent_slots [] with
    | .error e => .error e
    | .ok emails =>
      .ok ⟨est.events ++ invalid_warning est ++ [Event.errorNoDoctors], [], emails⟩

/-- One full cycle of `main` from the captured logs on: empty working
collections, the extraction loop, then everything after it. -/
def main_cycle (env : CycleEnv) (args : Args) : Except String CycleResult :=
  match process_logs env env.logs ⟨[], [], []⟩ with
  | .error e => .error e
  | .ok est => after_extract env args est

/-- The infinite loop of the program, truncated to a number of cycles: each
cycle re-runs `main` on the same environment and flags. -/
def run_cycles (env : CycleEnv) (args : Args) : Nat → List (Except String CycleResult)
  | 0 => []
  | n + 1 => main_cycle env args :: run_cycles env args n

/-- A concrete environment whose first doctor has a positive total but an
empty availabilities list. -/
def envOffending : CycleEnv where
  logs := []
  fetch := fun _ => ⟨none, [], []⟩
  avail := fun l => if l = "L1" then ⟨1, [], none⟩ else ⟨2, [["2025-06-01T09:30:00.000000+02:00"]], none⟩
  name := fun _ => some "Dr A"
  blocked_doctor_ids := ""
  current_date := "2025-06-01"

/-- A concrete environment where one availability response has a zero total
and a null `next_slot`, and another has an unparseable `next_slot`. -/
def envNullSlot : CycleEnv where
  logs := []
  fetch := fun _ => ⟨none, [], []⟩
  avail := fun l =>
    if l = "L1" then ⟨0, [], some none⟩ else ⟨0, [], some (some "not-a-timestamp")⟩
  name := fun _ => none
  blocked_doctor_ids := ""
  current_date := "2025-06-01"

/-- A concrete environment with a zero total and a well-formed
`next_slot`. -/
def envFaraway : CycleEnv where
  logs := []
  fetch := fun _ => ⟨none, [], []⟩
  avail := fun _ => ⟨0, [], some (some "2025-07-10T10:00:00.000000+02:00")⟩
  name := fun _ => none
  blocked_doctor_ids := ""
  current_date := "2025-06-01"

/-- A concrete environment whose configuration blocks doctor id 5001. -/
def envBlocked : CycleEnv where
  logs := [⟨"Network.responseReceived", "application/json",
    "https://www.doctolib.fr/search_results/5001.json"⟩]
  fetch := fun _ => ⟨some 101, [7], [9]⟩
  avail := fun _ => ⟨0, [], none⟩
  name := fun _ => none
  blocked_doctor_ids := "5001, 613"
  current_date := "2025-06-01"

/-- A concrete environment with one non-blocked doctor exposing one imminent
slot. -/
def envOneSlot : CycleEnv where
  logs := [⟨"Network.responseReceived", "application/json",
    "https://www.doctolib.fr/search_results/5001.json"⟩]
  fetch := fun _ => ⟨some 101, [7], [9]⟩
  avail := fun _ => ⟨1, [["2025-06-01T09:30:00.000000+02:00"]], none⟩
  name := fun _ => some "Dr A"
  blocked_doctor_ids := ""
  current_date := "2025-06-01"

/-- A concrete log entry whose response URL holds no digit. -/
def entryNoDigits : LogEntry :=
  ⟨"Network.responseReceived", "application/json",
    "https://www.doctolib.fr/search_results/none.json"⟩

/-- The outcome of one cycle on `envOneSlot` with both flags unset. -/
def rOneSlot : CycleResult :=
  ⟨[Event.httpGet "https://www.doctolib.fr/search_results/5001.json",
    Event.debugRespUrl "https://www.doctolib.fr/search_results/5001.json",
    Event.httpGet
      "https://www.doctolib.fr/availabilities.json?start_date=2025-06-01&visit_motive_ids=101&agenda_ids=7&practice_ids=9&limit=15",
    Event.nameLookup "5001",
    Event.analyzing
      "https://www.doctolib.fr/availabilities.json?start_date=2025-06-01&visit_motive_ids=101&agenda_ids=7&practice_ids=9&limit=15",
    Event.headerPrint (some "Dr A"),
    Event.imminentPrint "Sunday, June 01, 2025" "09:30"], [], []⟩

end DoctolibScraper

namespace DoctolibScraper

/-- Claim C3: `log_filter` returns true iff the entry method equals the
network-response marker, its MIME type contains `json`, and its response URL
contains `search_results`; it returns false whenever any condition fails. -/
theorem log_filter_iff_conditions (l : LogEntry) :
    log_filter l = true ↔
      (l.method = "Network.responseReceived"
        ∧ "json".data <:+: l.mimeType.data
        ∧ "search_results".data <:+: l.url.data) := by
  simp [log_filter, strContains, Bool.and_eq_true, decide_eq_true_eq,
    beq_iff_eq, and_assoc]

/-- Witness for claim C3 at a concrete log entry. -/
theorem log_filter_iff_conditions_witness :
    log_filter ⟨"Network.responseReceived", "application/json",
        "https://www.doctolib.fr/search_results/1.json"⟩ = true ↔
      ("Network.responseReceived" = "Network.responseReceived"
        ∧ "json".data <:+: "application/json".data
        ∧ "search_results".data <:+:
            "https://www.doctolib.fr/search_results/1.json".data) :=
  log_filter_iff_conditions
    ⟨"Network.responseReceived", "application/json",
      "https://www.doctolib.fr/search_results/1.json"⟩

/-- Every character failing the digit test means no digit run is found. -/
theorem digitRunAux_eq_none (cs : List Char) (h : ∀ c ∈ cs, c.isDigit = false) :
    digitRunAux cs = none := by
  induction cs with
  | nil => rfl
  | cons c cs ih =>
    unfold digitRunAux
    rw [if_neg]
    · exact ih (fun x hx => h x (List.mem_cons_of_mem _ hx))
    · simp [h c (List.mem_cons_self _ _)]

/-- Claim C8: on a relevant log entry whose response URL holds no digit
character, provider-id extraction raises instead of returning an id, so the
extraction-loop body ends in an error. -/
theorem no_digit_extraction_raises (env : CycleEnv) (st : ExtractState)
    (l : LogEntry) (_hrel : log_filter l = true)
    (hnd : ∀ c ∈ l.url.data, c.isDigit = false) :
    process_log env st l
      = .error "AttributeError: NoneType object has no attribute group" := by
  have h : re_search_digits l.url = none := digitRunAux_eq_none _ hnd
  simp [process_log, h]

/-- Witness for claim C8 at a concrete digit-free URL. -/
theorem no_digit_extraction_raises_witness :
    process_log envBlocked ⟨[], [], []⟩ entryNoDigits
      = .error "AttributeError: NoneType object has no attribute group" :=
  no_digit_extraction_raises envBlocked ⟨[], [], []⟩ entryNoDigits
    (by decide) (by decide)

/-- Claim C6: on a relevant log entry whose extracted doctor id is matched
(as a substring) by the blocked-ids configuration, the loop body only logs a
warning: no HTTP GET is issued and no doctor-info record is created. -/
theorem blocked_doctor_skipped (env : CycleEnv) (st : ExtractState)
    (l : LogEntry) (did : String) (_hrel : log_filter l = true)
    (hid : re_search_digits l.url = some did)
    (hb : strContains env.blocked_doctor_ids did = true) :
    process_log env st l
      = .ok { st with events := st.events ++ [Event.warnBlocked did] } := by
  simp [process_log, hid, hb]

/-- Witness for claim C6 at a concrete blocked id. -/
theorem blocked_doctor_skipped_witness :
    process_log envBlocked ⟨[], [], []⟩
        ⟨"Network.responseReceived", "application/json",
          "https://www.doctolib.fr/search_results/5001.json"⟩
      = .ok ⟨[], [], [Event.warnBlocked "5001"]⟩ :=
  blocked_doctor_skipped envBlocked ⟨[], [], []⟩
    ⟨"Network.responseReceived", "application/json",
      "https://www.doctolib.fr/search_results/5001.json"⟩
    "5001" (by decide) (by decide) (by decide)

/-- Claim C7: for a non-blocked doctor whose search-result body holds
`visit_motive_id`, the recorded availability query URL embeds exactly the
start date, the extracted visit motive id, the first agenda id, the first
practice id, and the fixed limit of 15. -/
theorem availability_url_components (env : CycleEnv) (st : ExtractState)
    (l : LogEntry) (did : String) (vmid a p : Nat) (arest prest : List Nat)
    (hid : re_search_digits l.url = some did)
    (hb : strContains env.blocked_doctor_ids did = false)
    (hvm : (env.fetch l.url).visit_motive_id = some vmid)
    (ha : (env.fetch l.url).agenda_ids = a :: arest)
    (hp : (env.fetch l.url).practice_ids = p :: prest) :
    process_log env st l = .ok { st with
      events := st.events ++ [Event.httpGet l.url, Event.debugRespUrl l.url]
      doctor_info := st.doctor_info ++ [(did,
        "https://www.doctolib.fr/availabilities.json?start_date="
          ++ env.current_date
          ++ "&visit_motive_ids=" ++ toString vmid
          ++ "&agenda_ids=" ++ toString a
          ++ "&practice_ids=" ++ toString p
          ++ "&limit=15")] } := by
  simp [process_log, hid, hb, hvm, ha, hp, build_url]

/-- Witness for claim C7 at a concrete doctor. -/
theorem availability_url_components_witness :
    process_log envOneSlot ⟨[], [], []⟩
        ⟨"Network.responseReceived", "application/json",
          "https://www.doctolib.fr/search_results/5001.json"⟩
      = .ok ⟨[("5001",
          "https://www.doctolib.fr/availabilities.json?start_date=2025-06-01&visit_motive_ids=101&agenda_ids=7&practice_ids=9&limit=15")],
          [],
          [Event.httpGet "https://www.doctolib.fr/search_results/5001.json",
           Event.debugRespUrl "https://www.doctolib.fr/search_results/5001.json"]⟩ :=
  availability_url_components envOneSlot ⟨[], [], []⟩
    ⟨"Network.responseReceived", "application/json",
      "https://www.doctolib.fr/search_results/5001.json"⟩
    "5001" 101 7 9 [] [] (by decide) (by decide) rfl rfl rfl

/-- Claim C1 (failing input): on a batch holding one record of the shape
appended by `main` (set literals around the formatted date and time, the
provider name when known), composing the email body raises a `TypeError`
instead of producing the claimed one-line-per-slot body; likewise for the
nameless two-element shape. -/
theorem email_body_set_crash :
    check_imminent_slots
        [[PyVal.set ["Sunday, June 01, 2025"], PyVal.set ["09:30"],
          PyVal.str "Dr A"]]
      = .error "TypeError: set object is not subscriptable"
    ∧ check_imminent_slots
        [[PyVal.set ["Monday, June 02, 2025"], PyVal.set ["10:15"]]]
      = .error "TypeError: set object is not subscriptable" :=
  ⟨rfl, rfl⟩

/-- Claim C4 (failing input): an empty batch dispatches no email, but any
non-empty batch of records of the shape appended by `main` crashes with a
`TypeError` while building the body, so no email with a pluralized subject
is ever dispatched. -/
theorem email_dispatch_set_crash :
    check_imminent_slots [] = .ok []
    ∧ check_imminent_slots
        [[PyVal.set ["Tuesday, June 03, 2025"], PyVal.set ["11:00"],
          PyVal.str "Dr B"],
         [PyVal.set ["Tuesday, June 03, 2025"], PyVal.set ["11:30"],
          PyVal.str "Dr B"]]
      = .error "TypeError: set object is not subscriptable" :=
  ⟨rfl, rfl⟩

/-- Counterexample to claim C5 as stated: a present `next_slot` does not
guarantee one faraway line.  A present null value prints nothing, and a
present unparseable value raises a `ValueError` instead of printing. -/
theorem next_slot_present_without_line :
    (envNullSlot.avail "L1").total = 0
    ∧ (envNullSlot.avail "L1").next_slot = some none
    ∧ process_doctor envNullSlot ⟨false, false⟩ ⟨[], []⟩ "1" "L1"
        = .ok (⟨[Event.httpGet "L1"], []⟩, false)
    ∧ (envNullSlot.avail "L2").next_slot = some (some "not-a-timestamp")
    ∧ process_doctor envNullSlot ⟨false, false⟩ ⟨[], []⟩ "2" "L2"
        = .error "ValueError: not enough values to unpack (expected 2, got 1)" :=
  ⟨rfl, rfl, rfl, rfl, rfl⟩

/-- Claim C5 (amended): on a zero-total response, with the imminent flag
unset and a present, truthy, parseable `next_slot`, exactly one faraway line
is printed; with the imminent flag set nothing is printed regardless of
`next_slot`; an absent `next_slot` key is silently tolerated. -/
theorem faraway_slot_reporting (env : CycleEnv) (args : Args) (st : RState)
    (d link : String) (htot : ¬ (env.avail link).total > 0) :
    (∀ ns dd tt, args.imminent = false →
      (env.avail link).next_slot = some (some ns) → ¬ ns = "" →
      parse_slot ns = .ok (dd, tt) →
      process_doctor env args st d link
        = .ok ({ st with events := st.events ++ [Event.httpGet link]
            ++ [Event.analyzing link]
            ++ [Event.farawayPrint (fmt_date dd) (fmt_time tt)] }, false))
    ∧ (args.imminent = true →
      process_doctor env args st d link
        = .ok ({ st with events := st.events ++ [Event.httpGet link] }, false))
    ∧ ((env.avail link).next_slot = none →
      process_doctor env args st d link
        = .ok ({ st with events := st.events ++ [Event.httpGet link] }, false)) := by
  refine ⟨?_, ?_, ?_⟩
  · intro ns dd tt himm hns hne hp
    simp [process_doctor, htot, himm, hns, hne, hp]
  · intro himm
    simp [process_doctor, htot, himm]
  · intro hns
    cases himm : args.imminent with
    | true => simp [process_doctor, htot, himm, hns]
    | false => simp [process_doctor, htot, himm, hns]

/-- Witness for the amended claim C5 at a concrete zero-total response. -/
theorem faraway_slot_reporting_witness :
    process_doctor envFaraway ⟨false, false⟩ ⟨[], []⟩ "1" "L1"
      = .ok (⟨[Event.httpGet "L1", Event.analyzing "L1",
          Event.farawayPrint "Thursday, July 10, 2025" "10:00"], []⟩, false) :=
  (faraway_slot_reporting envFaraway ⟨false, false⟩ ⟨[], []⟩ "1" "L1"
      (by decide)).1
    "2025-07-10T10:00:00.000000+02:00" ⟨2025, 7, 10⟩ ⟨10, 0, 0, 0, 120⟩
    rfl rfl (by decide) rfl

/-- Running the availability loop on a concatenation: the second part runs
only when the first finishes without an error or a break. -/
theorem process_doctors_append (env : CycleEnv) (args : Args)
    (xs ys : List (String × String)) (st : RState) :
    process_doctors env args (xs ++ ys) st =
      match process_doctors env args xs st with
      | .error e => .error e
      | .ok (st1, true) => .ok (st1, true)
      | .ok (st1, false) => process_doctors env args ys st1 := by
  induction xs generalizing st with
  | nil => simp [process_doctors]
  | cons hd tl ih =>
    obtain ⟨d, link⟩ := hd
    cases h : process_doctor env args st d link with
    | error e => simp [process_doctors, h]
    | ok p =>
      obtain ⟨st1, b⟩ := p
      cases b with
      | true => simp [process_doctors, h]
      | false => simp [process_doctors, h, ih]

/-- A doctor with a positive total but an empty availabilities list ends the
loop body in the no-valid-appointments error and a break. -/
theorem process_doctor_empty_avail (env : CycleEnv) (args : Args) (st : RState)
    (d link : String) (htot : (env.avail link).total > 0)
    (hav : (env.avail link).availabilities = []) :
    process_doctor env args st d link
      = .ok ({ st with events := st.events
          ++ [Event.httpGet link, Event.nameLookup d]
          ++ (match env.name d with
              | some _ => []
              | none => [Event.errorNameNotFound])
          ++ [Event.analyzing link, Event.headerPrint (env.name d),
              Event.errorNoValid] }, true) := by
  cases hn : env.name d with
  | some nm => simp [process_doctor, htot, hav, hn]
  | none => simp [process_doctor, htot, hav, hn]

/-- Claim C2: when the availability loop reaches a doctor whose response has
a positive total but an empty availabilities list, the loop aborts: the run
on the full list equals the run truncated right after the offending doctor
(so no fetch, name lookup or printing happens for any later doctor), the
loop ends in a break, and the no-valid-appointments error is logged. -/
theorem abort_on_empty_availabilities (env : CycleEnv) (args : Args)
    (pre post : List (String × String)) (d link : String) (st st1 : RState)
    (hpre : process_doctors env args pre st = .ok (st1, false))
    (htot : (env.avail link).total > 0)
    (hav : (env.avail link).availabilities = []) :
    process_doctors env args (pre ++ (d, link) :: post) st
      = process_doctors env args (pre ++ [(d, link)]) st
    ∧ ∃ st2, process_doctors env args (pre ++ (d, link) :: post) st
          = .ok (st2, true)
        ∧ Event.errorNoValid ∈ st2.events
        ∧ st2.imminent_slots = st1.imminent_slots := by
  have hd := process_doctor_empty_avail env args st1 d link htot hav
  have key : ∀ zs : List (String × String),
      process_doctors env args ((d, link) :: zs) st1
        = .ok ({ st1 with events := st1.events
            ++ [Event.httpGet link, Event.nameLookup d]
            ++ (match env.name d with
                | some _ => []
                | none => [Event.errorNameNotFound])
            ++ [Event.analyzing link, Event.headerPrint (env.name d),
                Event.errorNoValid] }, true) := by
    intro zs
    simp [process_doctors, hd]
  constructor
  · rw [process_doctors_append, process_doctors_append, hpre]
    show process_doctors env args ((d, link) :: post) st1
      = process_doctors env args ((d, link) :: []) st1
    rw [key post, key []]
  · refine ⟨{ st1 with events := st1.events
        ++ [Event.httpGet link, Event.nameLookup d]
        ++ (match env.name d with
            | some _ => []
            | none => [Event.errorNameNotFound])
        ++ [Event.analyzing link, Event.headerPrint (env.name d),
            Event.errorNoValid] }, ?_, ?_, rfl⟩
    · rw [process_doctors_append, hpre]
      exact key post
    · simp

/-- Witness for claim C2 at a concrete offending doctor followed by one more
doctor. -/
theorem abort_on_empty_availabilities_witness :
    process_doctors envOffending ⟨false, false⟩
        ([] ++ ("1", "L1") :: [("2", "L2")]) ⟨[], []⟩
      = process_doctors envOffending ⟨false, false⟩ ([] ++ [("1", "L1")]) ⟨[], []⟩
    ∧ ∃ st2, process_doctors envOffending ⟨false, false⟩
          ([] ++ ("1", "L1") :: [("2", "L2")]) ⟨[], []⟩
        = .ok (st2, true)
      ∧ Event.errorNoValid ∈ st2.events
      ∧ st2.imminent_slots = (⟨[], []⟩ : RState).imminent_slots :=
  abort_on_empty_availabilities envOffending ⟨false, false⟩ [] [("2", "L2")]
    "1" "L1" ⟨[], []⟩ ⟨[], []⟩ rfl (by decide) (by decide)

/-- Every cycle of the loop produces the same result. -/
theorem run_cycles_getElem (env : CycleEnv) (args : Args) (n i : Nat)
    (h : i < n) :
    List.get? (run_cycles env args n) i = some (main_cycle env args) := by
  induction n generalizing i with
  | zero => exact absurd h (Nat.not_lt_zero i)
  | succ n ih =>
    cases i with
    | zero => rfl
    | succ j =>
      have hj := ih j (Nat.lt_of_succ_lt_succ h)
      simpa [run_cycles] using hj

/-- Claim C9: with a fixed environment and configuration, any two
consecutive cycles of the loop produce identical output; every cycle starts
from empty collections and equals one fresh run of `main`. -/
theorem cycles_identical_output (env : CycleEnv) (args : Args) (n i : Nat)
    (h : i + 1 < n) :
    List.get? (run_cycles env args n) i
      = List.get? (run_cycles env args n) (i + 1)
    ∧ List.get? (run_cycles env args n) i = some (main_cycle env args) := by
  have h1 := run_cycles_getElem env args n i (Nat.lt_of_succ_lt h)
  have h2 := run_cycles_getElem env args n (i + 1) h
  exact ⟨h1.trans h2.symm, h1⟩

/-- Witness for claim C9 on a concrete three-cycle run. -/
theorem cycles_identical_output_witness :
    List.get? (run_cycles envOneSlot ⟨false, false⟩ 3) 0
      = List.get? (run_cycles envOneSlot ⟨false, false⟩ 3) 1
    ∧ List.get? (run_cycles envOneSlot ⟨false, false⟩ 3) 0
      = some (main_cycle envOneSlot ⟨false, false⟩) :=
  cycles_identical_output envOneSlot ⟨false, false⟩ 3 0 (by decide)

/-- With the email flag unset, one slot step leaves the batch unchanged. -/
theorem process_slot_batch_of_email_false (args : Args)
    (nm : Option String) (st : RState) (slot : String) (st1 : RState)
    (he : args.email = false)
    (h : process_slot args nm st slot = .ok st1) :
    st1.imminent_slots = st.imminent_slots := by
  unfold process_slot at h
  cases hp : parse_slot slot with
  | error e => rw [hp] at h; cases h
  | ok dt =>
    obtain ⟨d, t⟩ := dt
    rw [hp] at h
    simp [he] at h
    rw [← h]

/-- With the email flag unset, one day grouping leaves the batch
unchanged. -/
theorem process_slots_batch_of_email_false (args : Args)
    (nm : Option String) (l : List String) :
    ∀ st st1 : RState, args.email = false →
      process_slots args nm l st = .ok st1 →
      st1.imminent_slots = st.imminent_slots := by
  induction l with
  | nil =>
    intro st st1 he h
    cases h
    rfl
  | cons s rest ih =>
    intro st st1 he h
    simp only [process_slots] at h
    cases hp : process_slot args nm st s with
    | error e => rw [hp] at h; cases h
    | ok st2 =>
      rw [hp] at h
      have e1 := process_slot_batch_of_email_false args nm st s st2 he hp
      have e2 := ih st2 st1 he h
      rw [e2, e1]

/-- With the email flag unset, all day groupings leave the batch
unchanged. -/
theorem process_avails_batch_of_email_false (args : Args)
    (nm : Option String) (l : List (List String)) :
    ∀ st st1 : RState, args.email = false →
      process_avails args nm l st = .ok st1 →
      st1.imminent_slots = st.imminent_slots := by
  induction l with
  | nil =>
    intro st st1 he h
    cases h
    rfl
  | cons av rest ih =>
    intro st st1 he h
    simp only [process_avails] at h
    cases hp : process_slots args nm av st with
    | error e => rw [hp] at h; cases h
    | ok st2 =>
      rw [hp] at h
      have e1 := process_slots_batch_of_email_false args nm av st st2 he hp
      have e2 := ih st2 st1 he h
      rw [e2, e1]

/-- With the email flag unset, one doctor leaves the batch unchanged. -/
theorem process_doctor_batch_of_email_false (env : CycleEnv) (args : Args)
    (st : RState) (d link : String) (st1 : RState) (b : Bool)
    (he : args.email = false)
    (h : process_doctor env args st d link = .ok (st1, b)) :
    st1.imminent_slots = st.imminent_slots := by
  simp only [process_doctor] at h
  split at h
  · split at h
    · cases h
      rfl
    · split at h
      · cases h
      · rename_i st4 heq
        cases h
        have hb := process_avails_batch_of_email_false args _ _ _ _ he heq
        exact hb
  · split at h
    · split at h
      · cases h
        rfl
      · cases h
        rfl
      · split at h
        · cases h
          rfl
        · split at h
          · cases h
          · cases h
            rfl
    · cases h
      rfl

/-- With the email flag unset, the availability loop leaves the batch
unchanged. -/
theorem process_doctors_batch_of_email_false (env : CycleEnv) (args : Args)
    (l : List (String × String)) :
    ∀ (st st1 : RState) (b : Bool), args.email = false →
      process_doctors env args l st = .ok (st1, b) →
      st1.imminent_slots = st.imminent_slots := by
  induction l with
  | nil =>
    intro st st1 b he h
    cases h
    rfl
  | cons hd tl ih =>
    obtain ⟨d, link⟩ := hd
    intro st st1 b he h
    simp only [process_doctors] at h
    cases hp : process_doctor env args st d link with
    | error e => rw [hp] at h; cases h
    | ok p =>
      obtain ⟨st2, b2⟩ := p
      rw [hp] at h
      have e1 := process_doctor_batch_of_email_false env args st d link st2 b2 he hp
      cases b2 with
      | true =>
        cases h
        exact e1
      | false =>
        have e2 := ih st2 st1 b he h
        rw [e2, e1]

/-- With the email flag unset, the post-extraction stage ends with an empty
batch and no email. -/
theorem after_extract_email_false (env : CycleEnv) (args : Args)
    (est : ExtractState) (r : CycleResult) (he : args.email = false)
    (h : after_extract env args est = .ok r) :
    r.imminent_slots = [] ∧ r.emails = [] := by
  unfold after_extract at h
  by_cases hdi : est.doctor_info.length > 0
  · rw [if_pos hdi] at h
    cases hpd : process_doctors env args est.doctor_info
        ⟨est.events ++ invalid_warning est, []⟩ with
    | error e => rw [hpd] at h; cases h
    | ok p =>
      obtain ⟨st, b⟩ := p
      simp only [hpd] at h
      have hs : st.imminent_slots = [] :=
        process_doctors_batch_of_email_false env args est.doctor_info
          ⟨est.events ++ invalid_warning est, []⟩ st b he hpd
      rw [hs] at h
      cases h
      exact ⟨rfl, rfl⟩
  · rw [if_neg hdi] at h
    cases h
    exact ⟨rfl, rfl⟩

/-- Claim C10: with the email flag unset, no record is ever appended to the
batch, so the batch is empty at cycle end and no email is dispatched, even
when imminent slots are found and printed. -/
theorem no_email_flag_no_batch (env : CycleEnv) (args : Args)
    (r : CycleResult) (he : args.email = false)
    (h : main_cycle env args = .ok r) :
    r.imminent_slots = [] ∧ r.emails = [] := by
  unfold main_cycle at h
  cases hl : process_logs env env.logs ⟨[], [], []⟩ with
  | error e => rw [hl] at h; cases h
  | ok est =>
    rw [hl] at h
    exact after_extract_email_false env args est r he h

/-- Witness for claim C10 on a concrete cycle where an imminent slot is
found and printed but the email flag is unset. -/
theorem no_email_flag_no_batch_witness :
    main_cycle envOneSlot ⟨false, false⟩ = .ok rOneSlot
    ∧ rOneSlot.imminent_slots = [] ∧ rOneSlot.emails = [] :=
  ⟨rfl, no_email_flag_no_batch envOneSlot ⟨false, false⟩ rOneSlot rfl rfl⟩

end DoctolibScraper
